import Mathlib

/-!
Shallow embedding of the SAML 2.0 Web-SSO authentication provider
(`SAMLAuthenticationProvider` in
`x-pack/plugins/canvas/public/components/refresh_control/index.js`, second
document) together with the scaffolding it imports.  Pure functions are
translated directly; the transient mutation of `request.headers.authorization`
is embedded by threading the request value through each strategy; every
backend RPC becomes a field of a `Cluster` record of response functions, and
each call made is recorded in a `BackendCall` trace so that claims about which
calls happen (and in which order) are provable.
-/

namespace SamlProvider

/-- JavaScript truthiness of a string: the empty string is falsy. -/
def jsTruthyStr (s : String) : Bool := !s.data.isEmpty

/-- JavaScript truthiness of a possibly-absent string property: `undefined`
(`none`) and the empty string are falsy. -/
def jsTruthyOpt : Option String → Bool
  | none => false
  | some s => jsTruthyStr s

/-- JavaScript `a || b` for a possibly-absent string `a` with string default
`b`: yields `b` whenever `a` is absent or falsy. -/
def jsOrOpt (a : Option String) (b : String) : String :=
  match a with
  | some s => if jsTruthyStr s then s else b
  | none => b

/-- Whitespace characters matched by the JavaScript regex `\s` (ASCII part:
space, tab, line feed, vertical tab, form feed, carriage return). -/
def isJsSpace (c : Char) : Bool :=
  c == ' ' || c == '\t' || c == '\n' || c == '\r' ||
    c == Char.ofNat 11 || c == Char.ofNat 12

/-- First element of `s.split(/\s+/)`: the maximal initial run of
non-whitespace characters (empty when `s` starts with whitespace, because the
regex split yields a leading empty string in that case). -/
def firstToken (s : String) : String :=
  String.mk (s.data.takeWhile (fun c => !isJsSpace c))

/-- ASCII `toLowerCase()`. -/
def lowerStr (s : String) : String :=
  String.mk (s.data.map Char.toLower)

/-- Errors surfaced by the backend RPC client, plus the `Boom.badRequest`
errors the provider manufactures itself.  A backend error carries an HTTP-like
status code and an optional `body.error.reason` string, which is all the error
classifier reads. -/
inductive Err where
  | backend (statusCode : Nat) (bodyErrorReason : Option String)
  | badRequest (message : String)
deriving DecidableEq, Repr

/-- Modelled from the spec: `getErrorStatusCode` (imported from
`../../errors`, not under version control here) reads the HTTP-like status
code off an error; a `Boom.badRequest` error carries status code 400
(spec section 7: a user-visible 400 with a clear message). -/
def getErrorStatusCode : Err → Nat
  | .backend statusCode _ => statusCode
  | .badRequest _ => 400

/-- Accessor for the `err.body.error.reason` chain; absent on errors
manufactured via `Boom.badRequest`. -/
def Err.bodyErrorReason : Err → Option String
  | .backend _ reason => reason
  | .badRequest _ => none

/-- Error classifier `isAccessTokenExpiredError`: a 401, or the temporary
workaround case of a 500 whose reason says the token document is missing. -/
def isAccessTokenExpiredError (err : Err) : Bool :=
  let errorStatusCode := getErrorStatusCode err
  errorStatusCode == 401 ||
    (errorStatusCode == 500 &&
      err.bodyErrorReason == some "token document is missing and must be present")

/-- Provider state persisted by the caller between requests; all fields
optional, mirroring `ProviderState`. -/
structure ProviderState where
  requestId : Option String := none
  nextURL : Option String := none
  accessToken : Option String := none
  refreshToken : Option String := none
deriving DecidableEq, Repr

/-- Request headers; the provider only ever reads or writes
`authorization`.  `none` means the property is absent (deleted). -/
structure Headers where
  authorization : Option String := none
deriving DecidableEq, Repr

/-- Shape of a request body that may carry a SAML response
(`SAMLResponsePayload`). -/
structure SAMLPayload where
  SAMLResponse : Option String := none
  RelayState : Option String := none
deriving DecidableEq, Repr

/-- Shape of a request query that may carry a SAML request
(`SAMLRequestQuery`). -/
structure SAMLQuery where
  SAMLRequest : Option String := none
deriving DecidableEq, Repr

/-- The slice of a HapiJS request the provider reads: headers, parsed body,
parsed query, `url.path`, `url.search`, `getBasePath()`, and whether the
request can receive a redirect.  `canRedirect` is modelled from the spec:
`canRedirectRequest` (imported from `../../can_redirect_request`, not under
version control here) is "delegated to the external collaborator; model as a
boolean predicate" over the request, so it is a field here. -/
structure Request where
  headers : Headers := {}
  payload : Option SAMLPayload := none
  query : Option SAMLQuery := none
  urlPath : String := ""
  urlSearch : String := ""
  basePathR : String := ""
  canRedirect : Bool := true
deriving DecidableEq, Repr

/-- Predicate `isSAMLResponsePayload`: the body is present and carries a
truthy `SAMLResponse` field. -/
def isSAMLResponsePayload (payload : Option SAMLPayload) : Bool :=
  match payload with
  | none => false
  | some p => jsTruthyOpt p.SAMLResponse

/-- Predicate `isSAMLRequestQuery`: the query is present and carries a truthy
`SAMLRequest` field. -/
def isSAMLRequestQuery (query : Option SAMLQuery) : Bool :=
  match query with
  | none => false
  | some q => jsTruthyOpt q.SAMLRequest

/-- Access/refresh token pair returned by `shield.samlAuthenticate` and
`shield.getAccessToken`. -/
structure TokenPair where
  access_token : String
  refresh_token : String
deriving DecidableEq, Repr

/-- Response of `shield.samlPrepare`: the SAML request id and the IdP URL to
redirect the user to. -/
structure SamlPrepareResponse where
  id : String
  redirect : String
deriving DecidableEq, Repr

/-- Body of the `shield.getAccessToken` call. -/
structure GetTokenBody where
  grant_type : String
  refresh_token : String
deriving DecidableEq, Repr

/-- Backend RPC client, one response function per call the provider makes.
`shieldAuthenticate` is the *as-user* `shield.authenticate` call performed
through `callWithRequest`; it receives the request's current `authorization`
header.  The rest are *as-internal* calls through `callWithInternalUser`,
receiving their body fields.  `samlLogout`/`samlInvalidate` return the
optional `redirect` field of the logout response. -/
structure Cluster where
  shieldAuthenticate : Option String → Except Err String
  samlPrepare : String → Except Err SamlPrepareResponse
  samlAuthenticate : List String → String → Except Err TokenPair
  getAccessToken : GetTokenBody → Except Err TokenPair
  samlLogout : Option String → Option String → Except Err (Option String)
  samlInvalidate : String → String → Except Err (Option String)

/-- Provider construction options (`ProviderOptions`); the log sink is pure
side effect and is not modelled. -/
structure ProviderOptions where
  protocol : String
  hostname : String
  port : Nat
  basePath : String
  client : Cluster

/-- Assertion consumer service URL (`getACS`). -/
def getACS (o : ProviderOptions) : String :=
  o.protocol ++ "://" ++ o.hostname ++ ":" ++ toString o.port ++
    o.basePath ++ "/api/security/v1/saml"

/-- Modelled from the spec: `AuthenticationResult` (imported from
`../authentication_result`, not under version control here) is the tagged
union `NotHandled`, `Succeeded(user, newState?)`, `Failed(err)`,
`Redirect(url, newState?)`. -/
inductive AuthenticationResult where
  | notHandled
  | succeeded (user : String) (state : Option ProviderState)
  | failed (error : Err)
  | redirectTo (url : String) (state : Option ProviderState)
deriving DecidableEq, Repr

/-- Predicate `authenticationResult.notHandled()`. -/
def AuthenticationResult.isNotHandled : AuthenticationResult → Bool
  | .notHandled => true
  | _ => false

/-- Predicate `authenticationResult.failed()`. -/
def AuthenticationResult.isFailed : AuthenticationResult → Bool
  | .failed _ => true
  | _ => false

/-- Modelled from the spec: `DeauthenticationResult` (imported from
`../deauthentication_result`, not under version control here) is the tagged
union `NotHandled`, `Redirect(url)`, `Failed(err)`. -/
inductive DeauthenticationResult where
  | notHandled
  | redirectTo (url : String)
  | failed (error : Err)
deriving DecidableEq, Repr

/-- Trace entry recording one backend RPC together with the arguments it was
given. -/
inductive BackendCall where
  | authenticate (authHeader : Option String)
  | samlPrepare (acs : String)
  | samlAuthenticate (ids : List String) (content : String)
  | getAccessToken (body : GetTokenBody)
  | samlLogout (token : Option String) (refreshToken : Option String)
  | samlInvalidate (queryString : String) (acs : String)
deriving DecidableEq, Repr

/-- Recogniser for `getAccessToken` trace entries. -/
def BackendCall.isGetAccessToken : BackendCall → Bool
  | .getAccessToken _ => true
  | _ => false

/-- Result of `authenticateViaHeader`: the authentication result plus the
`headerNotRecognized` flag (absent in the source means `undefined`, i.e.
falsy, so it defaults to `false`). -/
structure HeaderAuthOutcome where
  authenticationResult : AuthenticationResult
  headerNotRecognized : Bool := false
deriving DecidableEq, Repr

/-- Strategy `authenticateViaHeader`: absent (or falsy) header yields
`NotHandled`; a non-`bearer` scheme yields `NotHandled` with
`headerNotRecognized`; otherwise the request is forwarded as-is to the
backend's as-user `authenticate`. -/
def authenticateViaHeader (o : ProviderOptions) (r : Request) :
    HeaderAuthOutcome × List BackendCall :=
  if !jsTruthyOpt r.headers.authorization then
    ({ authenticationResult := .notHandled }, [])
  else
    let authenticationSchema := firstToken (r.headers.authorization.getD "")
    if lowerStr authenticationSchema != "bearer" then
      ({ authenticationResult := .notHandled, headerNotRecognized := true }, [])
    else
      match o.client.shieldAuthenticate r.headers.authorization with
      | .ok user =>
        ({ authenticationResult := .succeeded user none },
          [.authenticate r.headers.authorization])
      | .error e =>
        ({ authenticationResult := .failed e },
          [.authenticate r.headers.authorization])

/-- Strategy `authenticateViaState`: inject `Bearer <accessToken>` into the
request headers and call as-user `authenticate`; on error the injected header
is removed (the property deleted, i.e. set back to `none`). -/
def authenticateViaState (o : ProviderOptions) (r : Request)
    (state : ProviderState) :
    AuthenticationResult × Request × List BackendCall :=
  if !jsTruthyOpt state.accessToken then (.notHandled, r, [])
  else
    let accessToken := state.accessToken.getD ""
    let r1 : Request :=
      { r with headers := { authorization := some ("Bearer " ++ accessToken) } }
    match o.client.shieldAuthenticate r1.headers.authorization with
    | .ok user =>
      (.succeeded user none, r1, [.authenticate r1.headers.authorization])
    | .error e =>
      (.failed e, { r1 with headers := { authorization := none } },
        [.authenticate r1.headers.authorization])

/-- Strategy `authenticateViaHandshake`: refuse for non-redirectable requests,
otherwise ask the backend to prepare a SAML request and redirect the user to
the IdP, remembering the request id and the URL to come back to. -/
def authenticateViaHandshake (o : ProviderOptions) (r : Request) :
    AuthenticationResult × List BackendCall :=
  if !r.canRedirect then (.notHandled, [])
  else
    match o.client.samlPrepare (getACS o) with
    | .ok resp =>
      (.redirectTo resp.redirect
          (some { requestId := some resp.id,
                  nextURL := some (r.basePathR ++ r.urlPath) }),
        [.samlPrepare (getACS o)])
    | .error e => (.failed e, [.samlPrepare (getACS o)])

/-- Catch block of `authenticateViaRefreshToken`: delete the (possibly)
injected header, then on a 400 either re-initiate the handshake (redirectable
request) or fail with the clear "both tokens expired" message; any other
error is propagated as `Failed`. -/
def refreshCatch (o : ProviderOptions) (r : Request) (err : Err)
    (calls : List BackendCall) :
    AuthenticationResult × Request × List BackendCall :=
  let r1 : Request := { r with headers := { authorization := none } }
  if getErrorStatusCode err == 400 then
    if r1.canRedirect then
      let h := authenticateViaHandshake o r1
      (h.1, r1, calls ++ h.2)
    else
      (.failed (.badRequest "Both access and refresh tokens are expired."),
        r1, calls)
  else (.failed err, r1, calls)

/-- Strategy `authenticateViaRefreshToken`: exchange the refresh token for a
new pair via as-internal `getAccessToken` with grant type `refresh_token`,
inject the new access token, authenticate as-user, and on success return the
user together with the complete new token pair as new state. -/
def authenticateViaRefreshToken (o : ProviderOptions) (r : Request)
    (state : ProviderState) :
    AuthenticationResult × Request × List BackendCall :=
  if !jsTruthyOpt state.refreshToken then (.notHandled, r, [])
  else
    let body : GetTokenBody :=
      { grant_type := "refresh_token",
        refresh_token := state.refreshToken.getD "" }
    match o.client.getAccessToken body with
    | .error e => refreshCatch o r e [.getAccessToken body]
    | .ok pair =>
      let r1 : Request :=
        { r with headers :=
            { authorization := some ("Bearer " ++ pair.access_token) } }
      match o.client.shieldAuthenticate r1.headers.authorization with
      | .ok user =>
        (.succeeded user
            (some { accessToken := some pair.access_token,
                    refreshToken := some pair.refresh_token }),
          r1, [.getAccessToken body, .authenticate r1.headers.authorization])
      | .error e =>
        refreshCatch o r1 e
          [.getAccessToken body, .authenticate r1.headers.authorization]

/-- Strategy `authenticateViaPayload`: exchange a `SAMLResponse` body for a
token pair.  A present state missing the request id or the redirect URL is a
hard `badRequest` failure before any backend call; an absent state means an
IdP-initiated login, sending an empty id list and landing on
`basePath + "/"`. -/
def authenticateViaPayload (o : ProviderOptions) (r : Request)
    (state : Option ProviderState) :
    AuthenticationResult × List BackendCall :=
  if !isSAMLResponsePayload r.payload then (.notHandled, [])
  else
    let stateRequestId : Option String :=
      match state with
      | some s => s.requestId
      | none => some ""
    let stateRedirectURL : Option String :=
      match state with
      | some s => s.nextURL
      | none => some ""
    if state.isSome &&
        (!jsTruthyOpt stateRequestId || !jsTruthyOpt stateRedirectURL) then
      (.failed (.badRequest
          "SAML response state does not have corresponding request id or redirect URL."),
        [])
    else
      let content := ((r.payload.getD {}).SAMLResponse).getD ""
      let ids : List String :=
        if jsTruthyOpt stateRequestId then [stateRequestId.getD ""] else []
      match o.client.samlAuthenticate ids content with
      | .ok pair =>
        (.redirectTo (jsOrOpt stateRedirectURL (o.basePath ++ "/"))
            (some { accessToken := some pair.access_token,
                    refreshToken := some pair.refresh_token }),
          [.samlAuthenticate ids content])
      | .error e => (.failed e, [.samlAuthenticate ids content])

/-- Statement block `if (state && authenticationResult.notHandled()) { ... }`
of `authenticate`: run the state strategy when a state is given and the header
strategy declined, falling through to the refresh strategy exactly when the
state strategy failed with an expired-access-token error. -/
def authStateStep (o : ProviderOptions) (r : Request)
    (state : Option ProviderState) (h : HeaderAuthOutcome × List BackendCall) :
    AuthenticationResult × Request × List BackendCall :=
  match state with
  | some s =>
    if h.1.authenticationResult.isNotHandled then
      let st := authenticateViaState o r s
      match st.1 with
      | .failed e =>
        if isAccessTokenExpiredError e then
          let rf := authenticateViaRefreshToken o st.2.1 s
          (rf.1, rf.2.1, h.2 ++ st.2.2 ++ rf.2.2)
        else (st.1, st.2.1, h.2 ++ st.2.2)
      | _ => (st.1, st.2.1, h.2 ++ st.2.2)
    else (h.1.authenticationResult, r, h.2)
  | none => (h.1.authenticationResult, r, h.2)

/-- Statement block `if (authenticationResult.notHandled()) { ...ViaPayload }`
of `authenticate`: try the payload strategy when everything before declined.
The request is never modified by this strategy. -/
def authPayloadStep (o : ProviderOptions) (state : Option ProviderState)
    (acc : AuthenticationResult × Request × List BackendCall) :
    AuthenticationResult × Request × List BackendCall :=
  if acc.1.isNotHandled then
    let p := authenticateViaPayload o acc.2.1 state
    (p.1, acc.2.1, acc.2.2 ++ p.2)
  else acc

/-- Final statement of `authenticate`: try the handshake strategy when
everything before declined.  The request is never modified by this
strategy. -/
def authHandshakeStep (o : ProviderOptions)
    (acc : AuthenticationResult × Request × List BackendCall) :
    AuthenticationResult × Request × List BackendCall :=
  if acc.1.isNotHandled then
    let hs := authenticateViaHandshake o acc.2.1
    (hs.1, acc.2.1, acc.2.2 ++ hs.2)
  else acc

/-- Ordered authentication algorithm `authenticate(request, state?)`:
header, then (when state is given and the header strategy declined without
rejecting the scheme) state with the `TokenExpired` fall-through to refresh,
then payload, then handshake.  The returned request carries the header
mutations the call left behind, and the trace lists every backend call made,
in order. -/
def SAMLAuthenticationProvider.authenticate (o : ProviderOptions)
    (r : Request) (state : Option ProviderState) :
    AuthenticationResult × Request × List BackendCall :=
  let h := authenticateViaHeader o r
  if h.1.headerNotRecognized then (h.1.authenticationResult, r, h.2)
  else authHandshakeStep o (authPayloadStep o state (authStateStep o r state h))

/-- Truthiness of `state && state.accessToken`: the deauthentication guard's
positive half. -/
def stateAccessTruthy : Option ProviderState → Bool
  | none => false
  | some st => jsTruthyOpt st.accessToken

/-- Shared tail of `deauthenticate`: a successful logout response with a
non-null `redirect` field redirects there (SAML Single Logout); a null one
redirects to `/logged_out`; an error becomes `Failed`. -/
def deauthFinish (resp : Except Err (Option String)) (call : BackendCall) :
    DeauthenticationResult × List BackendCall :=
  match resp with
  | .ok (some redirect) => (.redirectTo redirect, [call])
  | .ok none => (.redirectTo "/logged_out", [call])
  | .error e => (.failed e, [call])

/-- Deauthentication flow `deauthenticate(request, state?)`: nothing to do
without an access token or a `SAMLRequest` query; IdP-initiated logout calls
as-internal `samlInvalidate` with the query string (leading `?` stripped) and
the ACS URL; user-initiated logout calls as-internal `samlLogout` with the
stored token pair. -/
def SAMLAuthenticationProvider.deauthenticate (o : ProviderOptions)
    (r : Request) (state : Option ProviderState) :
    DeauthenticationResult × List BackendCall :=
  if !stateAccessTruthy state && !isSAMLRequestQuery r.query then
    (.notHandled, [])
  else
    if isSAMLRequestQuery r.query then
      let queryString :=
        if jsTruthyStr r.urlSearch then r.urlSearch.drop 1 else ""
      deauthFinish (o.client.samlInvalidate queryString (getACS o))
        (.samlInvalidate queryString (getACS o))
    else
      let st := state.getD {}
      deauthFinish (o.client.samlLogout st.accessToken st.refreshToken)
        (.samlLogout st.accessToken st.refreshToken)

/-! Concrete fixtures used to evaluate the provider on the spec's end-to-end
scenarios. -/

/-- Backend client stub whose calls all fail with a generic 503; concrete
scenarios override the calls they exercise. -/
def clBase : Cluster :=
  { shieldAuthenticate := fun _ => .error (.backend 503 none)
    samlPrepare := fun _ => .error (.backend 503 none)
    samlAuthenticate := fun _ _ => .error (.backend 503 none)
    getAccessToken := fun _ => .error (.backend 503 none)
    samlLogout := fun _ _ => .error (.backend 503 none)
    samlInvalidate := fun _ _ => .error (.backend 503 none) }

/-- Options whose backend accepts exactly the header `Bearer A` as user `U`
and rejects anything else with a 401. -/
def optsA : ProviderOptions :=
  { protocol := "http", hostname := "kibana", port := 5601, basePath := "/kbn",
    client := { clBase with
      shieldAuthenticate := fun a =>
        if a == some "Bearer A" then .ok "U" else .error (.backend 401 none) } }

/-- Options whose backend rejects every as-user authenticate with a 403. -/
def optsFail403 : ProviderOptions :=
  { optsA with client :=
      { clBase with shieldAuthenticate := fun _ => .error (.backend 403 none) } }

/-- Options whose backend answers `samlAuthenticate` for the SP-initiated
request id `req-1` and content `saml-xml` with the pair `A2`/`R2`. -/
def optsAcs : ProviderOptions :=
  { optsA with client :=
      { clBase with samlAuthenticate := fun ids content =>
          if ids == ["req-1"] && content == "saml-xml" then
            Except.ok (TokenPair.mk "A2" "R2")
          else .error (.backend 403 none) } }

/-- Options whose backend answers `samlAuthenticate` for an IdP-initiated
exchange (empty id list) of content `saml-xml` with the pair `A2`/`R2`. -/
def optsAcsIdp : ProviderOptions :=
  { optsA with client :=
      { clBase with samlAuthenticate := fun ids content =>
          if ids.isEmpty && content == "saml-xml" then
            Except.ok (TokenPair.mk "A2" "R2")
          else .error (.backend 403 none) } }

/-- Options whose backend rejects the refresh-token grant with a 400. -/
def optsRefresh400 : ProviderOptions :=
  { optsA with client :=
      { clBase with getAccessToken := fun _ => .error (.backend 400 none) } }

/-- Options whose backend answers `samlLogout` with an IdP single-logout
redirect. -/
def optsLogout : ProviderOptions :=
  { optsA with client :=
      { clBase with samlLogout := fun _ _ => .ok (some "https://idp/slo") } }

/-- Request with no authorization header, body or query, not
redirect-capable. -/
def reqBare : Request := { canRedirect := false }

/-- Request whose authorization header is present with the empty string as
value. -/
def reqEmptyAuth : Request :=
  { headers := { authorization := some "" }, canRedirect := false }

/-- Request whose authorization header starts with a space before the
`Bearer` keyword. -/
def reqSpaceBearer : Request :=
  { headers := { authorization := some " Bearer x" } }

/-- Request carrying a `Basic` authorization header. -/
def reqBasicAuth : Request :=
  { headers := { authorization := some "Basic abc" } }

/-- Request carrying a SAML response body, not redirect-capable. -/
def reqSaml : Request :=
  { payload := some { SAMLResponse := some "saml-xml" }, canRedirect := false }

/-- Established-session state with both tokens. -/
def stEstablished : ProviderState :=
  { accessToken := some "A", refreshToken := some "R" }

/-- State holding only a refresh token. -/
def stRefreshOnly : ProviderState := { refreshToken := some "R" }

/-- State with every field absent. -/
def stEmpty : ProviderState := {}

/-- Handshake-phase state with request id and return URL. -/
def stHandshake : ProviderState :=
  { requestId := some "req-1", nextURL := some "/app/home" }

/-! Theorems. -/

/-- Helper: a truthy authorization header whose first whitespace-separated
token does not lower-case to `bearer` makes the whole `authenticate` chain
return `NotHandled` at once, without touching the request and without any
backend call. -/
theorem authenticate_unrecognized_scheme (o : ProviderOptions) (r : Request)
    (s : Option ProviderState) (v : String)
    (hv : r.headers.authorization = some v) (ht : jsTruthyStr v = true)
    (hb : lowerStr (firstToken v) ≠ "bearer") :
    SAMLAuthenticationProvider.authenticate o r s =
      (.notHandled, r, []) := by
  unfold SAMLAuthenticationProvider.authenticate authenticateViaHeader
  simp [hv, jsTruthyOpt, ht, hb]

/-- C5: a present authorization header whose first whitespace-separated token
is not case-insensitively `bearer` makes `authenticate` return `NotHandled`
immediately: the request is untouched, the backend-call trace is empty, and
no later strategy runs, for every prior state. -/
theorem saml_c5_unrecognized_scheme_short_circuits (o : ProviderOptions)
    (r : Request) (s : Option ProviderState) (v : String)
    (hv : r.headers.authorization = some v) (ht : jsTruthyStr v = true)
    (hb : lowerStr (firstToken v) ≠ "bearer") :
    SAMLAuthenticationProvider.authenticate o r s =
      (.notHandled, r, []) :=
  authenticate_unrecognized_scheme o r s v hv ht hb

/-- Witness for C5 at the concrete header `Basic abc`. -/
theorem saml_c5_witness :
    reqBasicAuth.headers.authorization = some "Basic abc" ∧
    SAMLAuthenticationProvider.authenticate optsA reqBasicAuth
        (some stEstablished) = (.notHandled, reqBasicAuth, []) :=
  ⟨rfl,
    saml_c5_unrecognized_scheme_short_circuits optsA reqBasicAuth
      (some stEstablished) "Basic abc" rfl (by decide) (by decide)⟩

/-- C10: an authorization header value beginning with a whitespace character
has the empty string as its extracted scheme, so `authenticate` treats it as
an unrecognised scheme and returns `NotHandled` immediately, with no backend
call. -/
theorem saml_c10_leading_whitespace_header (o : ProviderOptions)
    (r : Request) (s : Option ProviderState) (c : Char) (cs : List Char)
    (hv : r.headers.authorization = some (String.mk (c :: cs)))
    (hw : isJsSpace c = true) :
    firstToken (String.mk (c :: cs)) = "" ∧
    SAMLAuthenticationProvider.authenticate o r s =
      (.notHandled, r, []) := by
  have hft : firstToken (String.mk (c :: cs)) = "" := by
    simp [firstToken, List.takeWhile, hw]
  refine ⟨hft, authenticate_unrecognized_scheme o r s _ hv ?_ ?_⟩
  · simp [jsTruthyStr]
  · rw [hft]; decide

/-- Witness for C10 at the concrete header value `" Bearer x"`. -/
theorem saml_c10_witness :
    reqSpaceBearer.headers.authorization = some " Bearer x" ∧
    firstToken " Bearer x" = "" ∧
    SAMLAuthenticationProvider.authenticate optsA reqSpaceBearer
        (some stEstablished) = (.notHandled, reqSpaceBearer, []) := by
  have h := saml_c10_leading_whitespace_header optsA reqSpaceBearer
    (some stEstablished) ' ' "Bearer x".data rfl (by decide)
  exact ⟨rfl, h.1, h.2⟩

/-- C6: the classifier marks an error as an expired access token exactly when
its status code is 401, or it is 500 and the `body.error.reason` string says
the token document is missing. -/
theorem saml_c6_expired_classifier (e : Err) :
    isAccessTokenExpiredError e = true ↔
      (getErrorStatusCode e = 401 ∨
        (getErrorStatusCode e = 500 ∧
          e.bodyErrorReason =
            some "token document is missing and must be present")) := by
  cases e <;>
    simp [isAccessTokenExpiredError, getErrorStatusCode, Err.bodyErrorReason]

/-- C8: with a truthy `SAMLResponse` body and a state carrying both a request
id and a next URL, the payload strategy calls `samlAuthenticate` with exactly
`ids = [requestId]` and the response content, and a successful exchange
redirects to the stored next URL with the complete new token pair as new
state. -/
theorem saml_c8_sp_initiated_payload (o : ProviderOptions) (r : Request)
    (s : ProviderState) (p : SAMLPayload) (sr rid nu : String)
    (pair : TokenPair)
    (hp : r.payload = some p) (hsr : p.SAMLResponse = some sr)
    (htsr : jsTruthyStr sr = true)
    (hrid : s.requestId = some rid) (htrid : jsTruthyStr rid = true)
    (hnu : s.nextURL = some nu) (htnu : jsTruthyStr nu = true)
    (hcl : o.client.samlAuthenticate [rid] sr = .ok pair) :
    authenticateViaPayload o r (some s) =
      (.redirectTo nu
          (some { accessToken := some pair.access_token,
                  refreshToken := some pair.refresh_token }),
        [.samlAuthenticate [rid] sr]) := by
  unfold authenticateViaPayload
  simp [isSAMLResponsePayload, hp, hsr, jsTruthyOpt, htsr, hrid, htrid,
    hnu, htnu, hcl, jsOrOpt]

/-- Witness for C8 at the spec's ACS-callback scenario. -/
theorem saml_c8_witness :
    reqSaml.payload = some { SAMLResponse := some "saml-xml" } ∧
    stHandshake.requestId = some "req-1" ∧
    stHandshake.nextURL = some "/app/home" ∧
    authenticateViaPayload optsAcs reqSaml (some stHandshake) =
      (.redirectTo "/app/home"
          (some { accessToken := some "A2", refreshToken := some "R2" }),
        [.samlAuthenticate ["req-1"] "saml-xml"]) :=
  ⟨rfl, rfl, rfl,
    saml_c8_sp_initiated_payload optsAcs reqSaml stHandshake
      { SAMLResponse := some "saml-xml" } "saml-xml" "req-1" "/app/home"
      (TokenPair.mk "A2" "R2") rfl rfl (by decide) rfl (by decide) rfl
      (by decide) rfl⟩

/-- C3 counterexample: at a request carrying the truthy `SAMLResponse` body
`saml-xml`, with a present prior state that has neither `requestId` nor
`nextURL`, and a backend that would accept the IdP-initiated exchange, the
whole `authenticate` chain returns the `badRequest` failure and the
backend-call trace is empty — `samlAuthenticate` is never called and no
redirect is produced, contradicting the claim. -/
theorem saml_c3_counterexample :
    isSAMLResponsePayload reqSaml.payload = true ∧
    stEmpty.requestId = none ∧ stEmpty.nextURL = none ∧
    SAMLAuthenticationProvider.authenticate optsAcsIdp reqSaml
        (some stEmpty) =
      (.failed (.badRequest
          "SAML response state does not have corresponding request id or redirect URL."),
        reqSaml, []) :=
  ⟨rfl, rfl, rfl, rfl⟩

/-- C3 amended: the IdP-initiated treatment (ids `[]`, redirect to
`basePath + "/"` with the new token pair) applies only when the prior state
is absent; a present prior state missing a truthy `requestId` or `nextURL`
(including one missing both) makes the payload strategy fail with the
`badRequest` error without any backend call. -/
theorem saml_c3_amended (o : ProviderOptions) (r : Request) (p : SAMLPayload)
    (sr : String) (hp : r.payload = some p) (hsr : p.SAMLResponse = some sr)
    (htsr : jsTruthyStr sr = true) :
    (∀ pair : TokenPair, o.client.samlAuthenticate [] sr = .ok pair →
      authenticateViaPayload o r none =
        (.redirectTo (o.basePath ++ "/")
            (some { accessToken := some pair.access_token,
                    refreshToken := some pair.refresh_token }),
          [.samlAuthenticate [] sr])) ∧
    (∀ s : ProviderState,
      jsTruthyOpt s.requestId = false ∨ jsTruthyOpt s.nextURL = false →
      authenticateViaPayload o r (some s) =
        (.failed (.badRequest
            "SAML response state does not have corresponding request id or redirect URL."),
          [])) := by
  have hispl : isSAMLResponsePayload (some p) = true := by
    simp [isSAMLResponsePayload, hsr, jsTruthyOpt, htsr]
  constructor
  · intro pair hcl
    unfold authenticateViaPayload
    simp [hp, hispl, hsr, hcl, jsOrOpt, jsTruthyOpt, jsTruthyStr]
  · intro s hmiss
    unfold authenticateViaPayload
    rcases hmiss with hm | hm <;> simp [hp, hispl, hm]

/-- Witness for the amended C3 at the concrete IdP-initiated scenario and at
the all-absent present state. -/
theorem saml_c3_witness :
    authenticateViaPayload optsAcsIdp reqSaml none =
      (.redirectTo "/kbn/"
          (some { accessToken := some "A2", refreshToken := some "R2" }),
        [.samlAuthenticate [] "saml-xml"]) ∧
    authenticateViaPayload optsAcsIdp reqSaml (some stEmpty) =
      (.failed (.badRequest
          "SAML response state does not have corresponding request id or redirect URL."),
        []) := by
  have h := saml_c3_amended optsAcsIdp reqSaml
    { SAMLResponse := some "saml-xml" } "saml-xml" rfl rfl (by decide)
  exact ⟨h.1 (TokenPair.mk "A2" "R2") rfl, h.2 stEmpty (Or.inl rfl)⟩

/-- C1 counterexample: in the spec's established-session scenario (no entry
authorization header, state with tokens `A`/`R`, backend accepting
`Bearer A` as user `U`) the result is `Succeeded(U)` with no new state, but
`request.headers.authorization` is `Bearer A` after the call, not absent as
the claim states. -/
theorem saml_c1_counterexample :
    reqBare.headers.authorization = none ∧
    (SAMLAuthenticationProvider.authenticate optsA reqBare
        (some stEstablished)).1 = .succeeded "U" none ∧
    (SAMLAuthenticationProvider.authenticate optsA reqBare
        (some stEstablished)).2.1.headers.authorization = some "Bearer A" ∧
    some "Bearer A" ≠ (none : Option String) :=
  ⟨rfl, rfl, rfl, by decide⟩

/-- C1 amended: a state-strategy success returns `Succeeded(user)` with no
new state, and after the call `request.headers.authorization` holds the
injected `Bearer <accessToken>` value (the injected header is retained on
success, not deleted). -/
theorem saml_c1_amended (o : ProviderOptions) (r : Request)
    (s : ProviderState) (a u : String)
    (hhdr : jsTruthyOpt r.headers.authorization = false)
    (ha : s.accessToken = some a) (hta : jsTruthyStr a = true)
    (hcl : o.client.shieldAuthenticate (some ("Bearer " ++ a)) = .ok u) :
    SAMLAuthenticationProvider.authenticate o r (some s) =
      (.succeeded u none,
        { r with headers := { authorization := some ("Bearer " ++ a) } },
        [.authenticate (some ("Bearer " ++ a))]) := by
  unfold SAMLAuthenticationProvider.authenticate authenticateViaHeader
    authStateStep authenticateViaState authPayloadStep authHandshakeStep
  rw [hhdr]
  simp [ha, jsTruthyOpt, hta, hcl, AuthenticationResult.isNotHandled]

/-- Witness for the amended C1 at the spec's established-session scenario. -/
theorem saml_c1_witness :
    SAMLAuthenticationProvider.authenticate optsA reqBare
        (some stEstablished) =
      (.succeeded "U" none,
        { reqBare with headers := { authorization := some "Bearer A" } },
        [.authenticate (some "Bearer A")]) := by
  have h := saml_c1_amended optsA reqBare stEstablished "A" "U" rfl rfl
    (by decide) rfl
  simpa using h

/-- Helper: the refresh catch block ignores the incoming headers — it always
starts by deleting the authorization header — so replacing the headers of its
request argument does not change its output. -/
theorem refreshCatch_headers_irrel (o : ProviderOptions) (r : Request)
    (h' : Headers) (e : Err) (c : List BackendCall) :
    refreshCatch o { r with headers := h' } e c = refreshCatch o r e c := by
  unfold refreshCatch
  rfl

/-- Helper: full case analysis of the refresh catch block: the returned
request has no authorization header, and the result is the handshake result
(400, redirect-capable), the both-tokens-expired `badRequest` (400, not
redirect-capable), or `Failed(err)` (anything else). -/
theorem refreshCatch_spec (o : ProviderOptions) (r : Request) (e : Err)
    (c : List BackendCall) :
    (refreshCatch o r e c).2.1.headers.authorization = none ∧
    ((getErrorStatusCode e = 400 ∧ r.canRedirect = true ∧
        (refreshCatch o r e c).1 =
          (authenticateViaHandshake o
            { r with headers := { authorization := none } }).1) ∨
      (getErrorStatusCode e = 400 ∧ r.canRedirect = false ∧
        (refreshCatch o r e c).1 =
          .failed (.badRequest "Both access and refresh tokens are expired.")) ∨
      (getErrorStatusCode e ≠ 400 ∧ (refreshCatch o r e c).1 = .failed e)) := by
  unfold refreshCatch
  cases h4 : getErrorStatusCode e == 400 with
  | true =>
    have h400 : getErrorStatusCode e = 400 := by
      simpa using h4
    cases hcr : r.canRedirect with
    | true => exact ⟨by simp [hcr], Or.inl ⟨h400, rfl, by simp [h4, hcr]⟩⟩
    | false => exact ⟨by simp [hcr], Or.inr (Or.inl ⟨h400, rfl, by simp [h4, hcr]⟩)⟩
  | false =>
    have hne : getErrorStatusCode e ≠ 400 := by
      simpa using h4
    exact ⟨by simp, Or.inr (Or.inr ⟨hne, by simp [h4]⟩)⟩

/-- C7: whenever the refresh strategy fails — at the `getAccessToken`
exchange or at the subsequent as-user `authenticate` — the injected header is
removed (the returned request's authorization is absent), and the outcome is:
handshake fall-through for a 400 on a redirect-capable request, the
both-tokens-expired `badRequest` failure for a 400 otherwise, and
`Failed(err)` for every other error. -/
theorem saml_c7_refresh_failure_handling (o : ProviderOptions) (r : Request)
    (s : ProviderState) (rt : String) (e : Err)
    (hrt : s.refreshToken = some rt) (htrt : jsTruthyStr rt = true)
    (herr : o.client.getAccessToken ⟨"refresh_token", rt⟩ = .error e ∨
      ∃ pair : TokenPair,
        o.client.getAccessToken ⟨"refresh_token", rt⟩ = .ok pair ∧
        o.client.shieldAuthenticate
          (some ("Bearer " ++ pair.access_token)) = .error e) :
    (authenticateViaRefreshToken o r s).2.1.headers.authorization = none ∧
    ((getErrorStatusCode e = 400 ∧ r.canRedirect = true ∧
        (authenticateViaRefreshToken o r s).1 =
          (authenticateViaHandshake o
            { r with headers := { authorization := none } }).1) ∨
      (getErrorStatusCode e = 400 ∧ r.canRedirect = false ∧
        (authenticateViaRefreshToken o r s).1 =
          .failed (.badRequest "Both access and refresh tokens are expired.")) ∨
      (getErrorStatusCode e ≠ 400 ∧
        (authenticateViaRefreshToken o r s).1 = .failed e)) := by
  rcases herr with hget | ⟨pair, hget, hauth⟩
  · have hred : authenticateViaRefreshToken o r s =
        refreshCatch o r e [.getAccessToken ⟨"refresh_token", rt⟩] := by
      unfold authenticateViaRefreshToken
      rw [hrt]
      simp [jsTruthyOpt, htrt, hget]
    rw [hred]
    exact refreshCatch_spec o r e _
  · have hred : authenticateViaRefreshToken o r s =
        refreshCatch o
          { r with headers :=
              { authorization := some ("Bearer " ++ pair.access_token) } }
          e [.getAccessToken ⟨"refresh_token", rt⟩,
            .authenticate (some ("Bearer " ++ pair.access_token))] := by
      unfold authenticateViaRefreshToken
      rw [hrt]
      simp [jsTruthyOpt, htrt, hget, hauth]
    rw [hred, refreshCatch_headers_irrel]
    exact refreshCatch_spec o r e _

/-- Witness for C7 at the spec's refresh-rejected AJAX scenario: refresh
grant rejected with 400 on a non-redirect-capable request. -/
theorem saml_c7_witness :
    (authenticateViaRefreshToken optsRefresh400 reqBare
        stEstablished).2.1.headers.authorization = none ∧
    ((getErrorStatusCode (Err.backend 400 none) = 400 ∧
        reqBare.canRedirect = true ∧
        (authenticateViaRefreshToken optsRefresh400 reqBare
            stEstablished).1 =
          (authenticateViaHandshake optsRefresh400
            { reqBare with headers := { authorization := none } }).1) ∨
      (getErrorStatusCode (Err.backend 400 none) = 400 ∧
        reqBare.canRedirect = false ∧
        (authenticateViaRefreshToken optsRefresh400 reqBare
            stEstablished).1 =
          .failed (.badRequest "Both access and refresh tokens are expired.")) ∨
      (getErrorStatusCode (Err.backend 400 none) ≠ 400 ∧
        (authenticateViaRefreshToken optsRefresh400 reqBare
            stEstablished).1 = .failed (.backend 400 none))) :=
  saml_c7_refresh_failure_handling optsRefresh400 reqBare stEstablished "R"
    (.backend 400 none) rfl (by decide) (Or.inl rfl)

/-- C9: whenever `deauthenticate` gets past its guard (an access token in the
state or a `SAMLRequest` query), it issues `samlInvalidate` for a
`SAMLRequest` query and `samlLogout` otherwise, and maps the backend's
answer: a non-null `redirect` becomes `Redirect(redirect)`, a null one
becomes `Redirect("/logged_out")`, and an error becomes `Failed(err)`. -/
theorem saml_c9_deauthenticate_backend (o : ProviderOptions) (r : Request)
    (s : Option ProviderState) (resp : Except Err (Option String))
    (hreach : (!stateAccessTruthy s && !isSAMLRequestQuery r.query) = false)
    (hresp : (isSAMLRequestQuery r.query = true ∧
        o.client.samlInvalidate
          (if jsTruthyStr r.urlSearch then r.urlSearch.drop 1 else "")
          (getACS o) = resp) ∨
      (isSAMLRequestQuery r.query = false ∧
        o.client.samlLogout (s.getD {}).accessToken
          (s.getD {}).refreshToken = resp)) :
    (SAMLAuthenticationProvider.deauthenticate o r s).1 =
      (match resp with
        | .ok (some u) => .redirectTo u
        | .ok none => .redirectTo "/logged_out"
        | .error e => .failed e) := by
  rcases hresp with ⟨hq, hcall⟩ | ⟨hq, hcall⟩
  · have hred : SAMLAuthenticationProvider.deauthenticate o r s =
        deauthFinish resp
          (.samlInvalidate
            (if jsTruthyStr r.urlSearch then r.urlSearch.drop 1 else "")
            (getACS o)) := by
      unfold SAMLAuthenticationProvider.deauthenticate
      simp [hreach, hq, hcall]
    rw [hred]
    cases resp with
    | ok v => cases v <;> rfl
    | error e => rfl
  · have hred : SAMLAuthenticationProvider.deauthenticate o r s =
        deauthFinish resp
          (.samlLogout (s.getD {}).accessToken (s.getD {}).refreshToken) := by
      have hst : stateAccessTruthy s = true := by
        simpa [hq] using hreach
      unfold SAMLAuthenticationProvider.deauthenticate
      simp [hst, hq, hcall]
    rw [hred]
    cases resp with
    | ok v => cases v <;> rfl
    | error e => rfl

/-- Witness for C9 at the spec's user-initiated logout scenario with an IdP
single-logout redirect. -/
theorem saml_c9_witness :
    (SAMLAuthenticationProvider.deauthenticate optsLogout reqBare
        (some stEstablished)).1 = .redirectTo "https://idp/slo" :=
  saml_c9_deauthenticate_backend optsLogout reqBare (some stEstablished)
    (.ok (some "https://idp/slo")) (by decide) (Or.inr ⟨rfl, rfl⟩)

/-- Helper: `isNotHandled` holds exactly on the `notHandled` variant. -/
theorem isNotHandled_iff (a : AuthenticationResult) :
    a.isNotHandled = true ↔ a = .notHandled := by
  cases a <;> simp [AuthenticationResult.isNotHandled]

/-- Helper: with a falsy access token the state strategy declines without
touching the request or the backend. -/
theorem viaState_notHandled_of_falsy (o : ProviderOptions) (r : Request)
    (s : ProviderState) (ha : jsTruthyOpt s.accessToken = false) :
    authenticateViaState o r s = (.notHandled, r, []) := by
  unfold authenticateViaState
  simp [ha]

/-- Helper: with a falsy access token the whole state/refresh block is a
no-op: it passes the header strategy's outcome through unchanged. -/
theorem authStateStep_accessToken_falsy (o : ProviderOptions) (r : Request)
    (s : ProviderState) (ha : jsTruthyOpt s.accessToken = false)
    (h : HeaderAuthOutcome × List BackendCall) :
    authStateStep o r (some s) h = (h.1.authenticationResult, r, h.2) := by
  unfold authStateStep
  cases hi : h.1.authenticationResult.isNotHandled with
  | false => simp [hi]
  | true =>
    have hnh := (isNotHandled_iff _).mp hi
    simp [hi, viaState_notHandled_of_falsy o r s ha, hnh]

/-- Helper: the header strategy only ever issues as-user `authenticate`
calls. -/
theorem viaHeader_calls_no_get (o : ProviderOptions) (r : Request) :
    ∀ c ∈ (authenticateViaHeader o r).2, c.isGetAccessToken = false := by
  intro c hc
  unfold authenticateViaHeader at hc
  repeat' (first | split at hc | simp only [apply_ite Prod.snd] at hc)
  all_goals simp_all [BackendCall.isGetAccessToken]

/-- Helper: the payload strategy only ever issues `samlAuthenticate`
calls. -/
theorem viaPayload_calls_no_get (o : ProviderOptions) (r : Request)
    (s : Option ProviderState) :
    ∀ c ∈ (authenticateViaPayload o r s).2, c.isGetAccessToken = false := by
  intro c hc
  unfold authenticateViaPayload at hc
  repeat' (first | split at hc | simp only [apply_ite Prod.snd] at hc)
  all_goals simp_all [BackendCall.isGetAccessToken]

/-- Helper: the handshake strategy only ever issues `samlPrepare` calls. -/
theorem viaHandshake_calls_no_get (o : ProviderOptions) (r : Request) :
    ∀ c ∈ (authenticateViaHandshake o r).2, c.isGetAccessToken = false := by
  intro c hc
  unfold authenticateViaHandshake at hc
  repeat' split at hc
  all_goals simp_all [BackendCall.isGetAccessToken]

/-- Helper: the payload step adds no `getAccessToken` call to a trace that
has none. -/
theorem authPayloadStep_calls_no_get (o : ProviderOptions)
    (s : Option ProviderState)
    (acc : AuthenticationResult × Request × List BackendCall)
    (hacc : ∀ c ∈ acc.2.2, BackendCall.isGetAccessToken c = false) :
    ∀ c ∈ (authPayloadStep o s acc).2.2, c.isGetAccessToken = false := by
  intro c hc
  unfold authPayloadStep at hc
  split at hc
  · simp only [List.mem_append] at hc
    rcases hc with h | h
    · exact hacc c h
    · exact viaPayload_calls_no_get o acc.2.1 s c h
  · exact hacc c hc

/-- Helper: the handshake step adds no `getAccessToken` call to a trace that
has none. -/
theorem authHandshakeStep_calls_no_get (o : ProviderOptions)
    (acc : AuthenticationResult × Request × List BackendCall)
    (hacc : ∀ c ∈ acc.2.2, BackendCall.isGetAccessToken c = false) :
    ∀ c ∈ (authHandshakeStep o acc).2.2, c.isGetAccessToken = false := by
  intro c hc
  unfold authHandshakeStep at hc
  split at hc
  · simp only [List.mem_append] at hc
    rcases hc with h | h
    · exact hacc c h
    · exact viaHandshake_calls_no_get o acc.2.1 c h
  · exact hacc c hc

/-- Helper: with a falsy access token in the state, no strategy of the whole
`authenticate` chain ever calls `getAccessToken`. -/
theorem authenticate_no_getAccessToken_of_falsy (o : ProviderOptions)
    (r : Request) (s : ProviderState)
    (ha : jsTruthyOpt s.accessToken = false) :
    ∀ c ∈ (SAMLAuthenticationProvider.authenticate o r (some s)).2.2,
      c.isGetAccessToken = false := by
  intro c hc
  simp only [SAMLAuthenticationProvider.authenticate] at hc
  rw [authStateStep_accessToken_falsy o r s ha] at hc
  split at hc
  · exact viaHeader_calls_no_get o r c hc
  · exact authHandshakeStep_calls_no_get o _
      (authPayloadStep_calls_no_get o (some s) _
        (fun d hd => viaHeader_calls_no_get o r d hd)) c hc

/-- C2 counterexample: with prior state `{refreshToken:"R"}` (access token
absent), no header, no payload, a non-redirect-capable request and a backend
that would accept the refresh grant's scheme, `authenticate` returns
`NotHandled` with an empty backend-call trace — `getAccessToken` is never
called, contradicting the claim that the refresh strategy is attempted. -/
theorem saml_c2_counterexample :
    jsTruthyOpt stRefreshOnly.refreshToken = true ∧
    stRefreshOnly.accessToken = none ∧
    SAMLAuthenticationProvider.authenticate optsA reqBare
        (some stRefreshOnly) = (.notHandled, reqBare, []) :=
  ⟨rfl, rfl, rfl⟩

/-- C2 amended: when `priorState.accessToken` is absent (falsy) the state
strategy returns `NotHandled`, and the refresh strategy is then skipped, not
attempted: the provider proceeds directly to the payload and handshake
strategies and `getAccessToken` is never called (the refresh strategy only
runs after a state-strategy failure with an expired-token error). -/
theorem saml_c2_amended (o : ProviderOptions) (r : Request)
    (s : ProviderState) (ha : jsTruthyOpt s.accessToken = false) :
    authenticateViaState o r s = (.notHandled, r, []) ∧
    ∀ c ∈ (SAMLAuthenticationProvider.authenticate o r (some s)).2.2,
      c.isGetAccessToken = false :=
  ⟨viaState_notHandled_of_falsy o r s ha,
    authenticate_no_getAccessToken_of_falsy o r s ha⟩

/-- Witness for the amended C2 at the concrete refresh-token-only state. -/
theorem saml_c2_witness :
    authenticateViaState optsA reqBare stRefreshOnly =
      (.notHandled, reqBare, []) ∧
    ∀ c ∈ (SAMLAuthenticationProvider.authenticate optsA reqBare
        (some stRefreshOnly)).2.2, c.isGetAccessToken = false :=
  saml_c2_amended optsA reqBare stRefreshOnly rfl

/-- Helper: when the incoming outcome is not `NotHandled`, the state/refresh
block passes it through unchanged. -/
theorem authStateStep_not_notHandled (o : ProviderOptions) (r : Request)
    (state : Option ProviderState) (h : HeaderAuthOutcome × List BackendCall)
    (hn : h.1.authenticationResult.isNotHandled = false) :
    authStateStep o r state h = (h.1.authenticationResult, r, h.2) := by
  unfold authStateStep
  cases state with
  | none => rfl
  | some s => simp [hn]

/-- Helper: the payload step passes a non-`NotHandled` outcome through
unchanged. -/
theorem authPayloadStep_not_notHandled (o : ProviderOptions)
    (state : Option ProviderState)
    (acc : AuthenticationResult × Request × List BackendCall)
    (hn : acc.1.isNotHandled = false) : authPayloadStep o state acc = acc := by
  unfold authPayloadStep
  simp [hn]

/-- Helper: the handshake step passes a non-`NotHandled` outcome through
unchanged. -/
theorem authHandshakeStep_not_notHandled (o : ProviderOptions)
    (acc : AuthenticationResult × Request × List BackendCall)
    (hn : acc.1.isNotHandled = false) : authHandshakeStep o acc = acc := by
  unfold authHandshakeStep
  simp [hn]

/-- Helper: the payload step never modifies the request. -/
theorem authPayloadStep_req (o : ProviderOptions)
    (state : Option ProviderState)
    (acc : AuthenticationResult × Request × List BackendCall) :
    (authPayloadStep o state acc).2.1 = acc.2.1 := by
  unfold authPayloadStep
  split <;> rfl

/-- Helper: the handshake step never modifies the request. -/
theorem authHandshakeStep_req (o : ProviderOptions)
    (acc : AuthenticationResult × Request × List BackendCall) :
    (authHandshakeStep o acc).2.1 = acc.2.1 := by
  unfold authHandshakeStep
  split <;> rfl

/-- Helper: with a truthy header and a recognised scheme, the header strategy
is decisive: its result is `Succeeded` or `Failed`, never `NotHandled`. -/
theorem viaHeader_not_notHandled (o : ProviderOptions) (r : Request)
    (hja : jsTruthyOpt r.headers.authorization = true)
    (hhnr : (authenticateViaHeader o r).1.headerNotRecognized = false) :
    (authenticateViaHeader o r).1.authenticationResult.isNotHandled
      = false := by
  unfold authenticateViaHeader at hhnr ⊢
  by_cases hb : lowerStr (firstToken (r.headers.authorization.getD ""))
      = "bearer"
  · cases hcl : o.client.shieldAuthenticate r.headers.authorization <;>
      simp [hja, hb, hcl, AuthenticationResult.isNotHandled]
  · simp [hja, hb] at hhnr

/-- Helper: with a truthy entry authorization header, `authenticate` never
modifies the request: the header strategy either steals or rejects the
request without touching it, and no later strategy runs. -/
theorem authenticate_req_of_header_truthy (o : ProviderOptions) (r : Request)
    (s : Option ProviderState)
    (hja : jsTruthyOpt r.headers.authorization = true) :
    (SAMLAuthenticationProvider.authenticate o r s).2.1 = r := by
  simp only [SAMLAuthenticationProvider.authenticate]
  cases hhnr : (authenticateViaHeader o r).1.headerNotRecognized with
  | true => simp
  | false =>
    simp only [Bool.false_eq_true, if_false]
    rw [authHandshakeStep_req, authPayloadStep_req,
      authStateStep_not_notHandled o r s _ (viaHeader_not_notHandled o r hja hhnr)]

/-- Helper: with an absent entry authorization header the header strategy is
a no-op and `authenticate` reduces to the remaining three steps. -/
theorem authenticate_none_reduce (o : ProviderOptions) (r : Request)
    (s : Option ProviderState) (h0 : r.headers.authorization = none) :
    SAMLAuthenticationProvider.authenticate o r s =
      authHandshakeStep o (authPayloadStep o s
        (authStateStep o r s ({ authenticationResult := .notHandled }, []))) := by
  have hh : authenticateViaHeader o r =
      ({ authenticationResult := .notHandled }, []) := by
    unfold authenticateViaHeader
    simp [h0, jsTruthyOpt]
  simp only [SAMLAuthenticationProvider.authenticate, hh]
  exact if_neg (by simp)

/-- Helper: with a falsy refresh token the refresh strategy declines without
touching the request or the backend. -/
theorem viaRefresh_notHandled_of_falsy (o : ProviderOptions) (r : Request)
    (s : ProviderState) (hrt : jsTruthyOpt s.refreshToken = false) :
    authenticateViaRefreshToken o r s = (.notHandled, r, []) := by
  unfold authenticateViaRefreshToken
  simp [hrt]

/-- Helper: with an absent entry authorization header, every run of
`authenticate` either ends with the authorization header still absent, or
returns a `Succeeded` result (the only outcomes that keep an injected
header). -/
theorem authenticate_none_header_auth (o : ProviderOptions) (r : Request)
    (s : Option ProviderState) (h0 : r.headers.authorization = none) :
    (SAMLAuthenticationProvider.authenticate o r s).2.1.headers.authorization
        = none ∨
      ∃ u st, (SAMLAuthenticationProvider.authenticate o r s).1 =
        .succeeded u st := by
  rw [authenticate_none_reduce o r s h0]
  cases s with
  | none =>
    left
    rw [authHandshakeStep_req, authPayloadStep_req]
    simp [authStateStep, h0]
  | some st =>
    cases hA : jsTruthyOpt st.accessToken with
    | false =>
      left
      rw [authHandshakeStep_req, authPayloadStep_req,
        authStateStep_accessToken_falsy o r st hA]
      exact h0
    | true =>
      rcases hAT : st.accessToken with _ | a
      · rw [hAT] at hA
        simp [jsTruthyOpt] at hA
      · have hta : jsTruthyStr a = true := by
          rw [hAT] at hA
          simpa [jsTruthyOpt] using hA
        cases hcl : o.client.shieldAuthenticate (some ("Bearer " ++ a)) with
        | ok u =>
          have hstEq : authenticateViaState o r st =
              (.succeeded u none,
                { r with headers :=
                    { authorization := some ("Bearer " ++ a) } },
                [.authenticate (some ("Bearer " ++ a))]) := by
            unfold authenticateViaState
            simp [hAT, jsTruthyOpt, hta, hcl]
          have hstep : authStateStep o r (some st)
              ({ authenticationResult := .notHandled }, []) =
              (.succeeded u none,
                { r with headers :=
                    { authorization := some ("Bearer " ++ a) } },
                [.authenticate (some ("Bearer " ++ a))]) := by
            unfold authStateStep
            simp [AuthenticationResult.isNotHandled, hstEq]
          right
          refine ⟨u, none, ?_⟩
          rw [hstep]
          simp [authPayloadStep_not_notHandled,
            authHandshakeStep_not_notHandled, AuthenticationResult.isNotHandled]
        | error e =>
          have hstEq : authenticateViaState o r st =
              (.failed e, { r with headers := { authorization := none } },
                [.authenticate (some ("Bearer " ++ a))]) := by
            unfold authenticateViaState
            simp [hAT, jsTruthyOpt, hta, hcl]
          cases hexp : isAccessTokenExpiredError e with
          | false =>
            have hstep : authStateStep o r (some st)
                ({ authenticationResult := .notHandled }, []) =
                (.failed e, { r with headers := { authorization := none } },
                  [.authenticate (some ("Bearer " ++ a))]) := by
              unfold authStateStep
              simp [AuthenticationResult.isNotHandled, hstEq, hexp]
            left
            rw [authHandshakeStep_req, authPayloadStep_req, hstep]
          | true =>
            have hstep : authStateStep o r (some st)
                ({ authenticationResult := .notHandled }, []) =
                ((authenticateViaRefreshToken o
                    { r with headers := { authorization := none } } st).1,
                  (authenticateViaRefreshToken o
                    { r with headers := { authorization := none } } st).2.1,
                  .authenticate (some ("Bearer " ++ a)) ::
                    (authenticateViaRefreshToken o
                      { r with headers := { authorization := none } } st).2.2) := by
              unfold authStateStep
              simp [AuthenticationResult.isNotHandled, hstEq, hexp]
            cases hRT : jsTruthyOpt st.refreshToken with
            | false =>
              have hrf := viaRefresh_notHandled_of_falsy o
                { r with headers := { authorization := none } } st hRT
              left
              rw [authHandshakeStep_req, authPayloadStep_req, hstep]
              simp [hrf]
            | true =>
              rcases hRTeq : st.refreshToken with _ | rt
              · rw [hRTeq] at hRT
                simp [jsTruthyOpt] at hRT
              · have htrt : jsTruthyStr rt = true := by
                  rw [hRTeq] at hRT
                  simpa [jsTruthyOpt] using hRT
                cases hget : o.client.getAccessToken ⟨"refresh_token", rt⟩ with
                | error e2 =>
                  have hrf : authenticateViaRefreshToken o
                      { r with headers := { authorization := none } } st =
                      refreshCatch o
                        { r with headers := { authorization := none } } e2
                        [.getAccessToken ⟨"refresh_token", rt⟩] := by
                    unfold authenticateViaRefreshToken
                    rw [hRTeq]
                    simp [jsTruthyOpt, htrt, hget]
                  left
                  rw [authHandshakeStep_req, authPayloadStep_req, hstep]
                  simp only [hrf]
                  exact (refreshCatch_spec o
                    { r with headers := { authorization := none } } e2 _).1
                | ok pair =>
                  cases hcl2 : o.client.shieldAuthenticate
                      (some ("Bearer " ++ pair.access_token)) with
                  | ok u =>
                    have hrf : authenticateViaRefreshToken o
                        { r with headers := { authorization := none } } st =
                        (.succeeded u
                            (some { accessToken := some pair.access_token,
                                    refreshToken := some pair.refresh_token }),
                          { r with headers :=
                              { authorization :=
                                  some ("Bearer " ++ pair.access_token) } },
                          [.getAccessToken ⟨"refresh_token", rt⟩,
                            .authenticate
                              (some ("Bearer " ++ pair.access_token))]) := by
                      unfold authenticateViaRefreshToken
                      rw [hRTeq]
                      simp [jsTruthyOpt, htrt, hget, hcl2]
                    right
                    refine ⟨u, some (ProviderState.mk none none
                      (some pair.access_token) (some pair.refresh_token)), ?_⟩
                    rw [hstep]
                    simp only [hrf]
                    simp [authPayloadStep_not_notHandled,
                      authHandshakeStep_not_notHandled,
                      AuthenticationResult.isNotHandled]
                  | error e3 =>
                    have hrf : authenticateViaRefreshToken o
                        { r with headers := { authorization := none } } st =
                        refreshCatch o r e3
                          [.getAccessToken ⟨"refresh_token", rt⟩,
                            .authenticate
                              (some ("Bearer " ++ pair.access_token))] := by
                      unfold authenticateViaRefreshToken
                      rw [hRTeq]
                      simp [jsTruthyOpt, htrt, hget, hcl2,
                        refreshCatch_headers_irrel]
                    left
                    rw [authHandshakeStep_req, authPayloadStep_req, hstep]
                    simp only [hrf]
                    exact (refreshCatch_spec o r e3 _).1

/-- C4 counterexample: with an entry authorization header that is present
but equal to the empty string (falsy, so the header strategy declines), a
state access token, and a backend rejecting the as-user authenticate with a
403, `authenticate` returns `Failed` yet the exit authorization header is
absent (`none`), not the caller-supplied empty string: the entry value is
not preserved. -/
theorem saml_c4_counterexample :
    reqEmptyAuth.headers.authorization = some "" ∧
    (SAMLAuthenticationProvider.authenticate optsFail403 reqEmptyAuth
        (some stEstablished)).1 = .failed (.backend 403 none) ∧
    (SAMLAuthenticationProvider.authenticate optsFail403 reqEmptyAuth
        (some stEstablished)).2.1.headers.authorization = none ∧
    (none : Option String) ≠ some "" :=
  ⟨rfl, rfl, rfl, by decide⟩

/-- C4 amended: header neutrality holds for every entry header that is
absent or truthy (non-empty): if `authenticate` returns `NotHandled` or
`Failed`, the exit authorization header equals the entry one — an absent
header stays absent (any transient injection is undone by deleting the
property, i.e. setting it back to `none`, never to an empty value), and a
caller-supplied non-empty value is preserved untouched.  The only exception
is a caller-supplied empty-string header, which the state/refresh strategies
overwrite and delete on error. -/
theorem saml_c4_amended (o : ProviderOptions) (r : Request)
    (s : Option ProviderState)
    (hdr : r.headers.authorization = none ∨
      jsTruthyOpt r.headers.authorization = true)
    (hres : (SAMLAuthenticationProvider.authenticate o r s).1.isNotHandled
        = true ∨
      (SAMLAuthenticationProvider.authenticate o r s).1.isFailed = true) :
    (SAMLAuthenticationProvider.authenticate o r s).2.1.headers.authorization
      = r.headers.authorization := by
  rcases hdr with h0 | hja
  · rcases authenticate_none_header_auth o r s h0 with hl | ⟨u, st, hsucc⟩
    · rw [hl, h0]
    · rcases hres with hn | hf
      · rw [hsucc] at hn
        simp [AuthenticationResult.isNotHandled] at hn
      · rw [hsucc] at hf
        simp [AuthenticationResult.isFailed] at hf
  · rw [authenticate_req_of_header_truthy o r s hja]

/-- Witness for the amended C4: a bare request with no header and no state
ends in `NotHandled` with the header still absent. -/
theorem saml_c4_witness :
    (SAMLAuthenticationProvider.authenticate optsA reqBare
        none).2.1.headers.authorization = reqBare.headers.authorization :=
  saml_c4_amended optsA reqBare none (Or.inl rfl) (Or.inl rfl)

end SamlProvider
